import Mathlib

/-!
Verification of the HyRISE execution-mode resolution and container-mediated
invocation core (`src/hyrise/utils/container_utils.py`,
`src/hyrise/utils/container_builder.py`, `src/hyrise/config.py`,
`src/hyrise/commands/sierra.py`) as a shallow embedding.

The OS boundary (PATH lookup, filesystem existence, path resolution,
subprocess exit codes, file copies) is abstracted as an explicit environment
record; the Python control flow is translated function by function.
-/

namespace HyRISE

/-- Python truthiness of an optional string (`None` and `""` are falsy). -/
def pyTruthyOpt (o : Option String) : Bool :=
  match o with
  | none => false
  | some s => s ≠ ""

/-- Abstract OS environment: `which` is `shutil.which`, `versionExit` the exit
code of `[path, "--version"]`, `pathExists` filesystem existence of a path,
`resolve` is `Path(p).expanduser().resolve()`, `cwd` / `dataDir` the current
working directory and the XDG data dir (`get_default_data_dir()`), `runExit`
the exit code of an arbitrary argv. -/
structure Env where
  which : String → Option String
  versionExit : String → Int
  pathExists : String → Bool
  resolve : String → String
  cwd : String
  dataDir : String
  runExit : List String → Int

/-- Candidate runtime order of `detect_container_runtime`
(container_utils.py:46-51): `[preferred]` when truthy, then `"apptainer"` and
`"singularity"`, each appended only when not already present. -/
def runtimeCandidates (preferred_runtime : Option String) : List String :=
  let c0 : List String :=
    match preferred_runtime with
    | some p => if p = "" then [] else [p]
    | none => []
  let c1 := if "apptainer" ∈ c0 then c0 else c0 ++ ["apptainer"]
  if "singularity" ∈ c1 then c1 else c1 ++ ["singularity"]

/-- Loop body of `detect_container_runtime` (container_utils.py:53-57):
return the first candidate whose `shutil.which` lookup is truthy. -/
def detectGo (env : Env) : List String → Option String × Option String
  | [] => (none, none)
  | c :: rest =>
    let p := env.which c
    if pyTruthyOpt p then (some c, p) else detectGo env rest

/-- `detect_container_runtime` (container_utils.py:35-57). -/
def detect_container_runtime (env : Env) (preferred_runtime : Option String) :
    Option String × Option String :=
  detectGo env (runtimeCandidates preferred_runtime)

/-- `find_singularity_binary` (container_builder.py:50-77): for each of
`"singularity"`, `"apptainer"` in that order, look the binary up on PATH and
accept it only when its `--version` query exits 0. -/
def fsbGo (env : Env) : List String → Option String
  | [] => none
  | b :: rest =>
    match env.which b with
    | none => fsbGo env rest
    | some path =>
      if path = "" then fsbGo env rest
      else if env.versionExit path = 0 then some path
      else fsbGo env rest

/-- `find_singularity_binary` (container_builder.py:50-77). -/
def find_singularity_binary (env : Env) : Option String :=
  fsbGo env ["singularity", "apptainer"]

/-- Default cwd candidate `str((Path.cwd() / "hyrise.sif").resolve())`. -/
def cwdSif (env : Env) : String :=
  env.resolve (env.cwd ++ "/hyrise.sif")

/-- Default data-dir candidate
`str((get_default_data_dir() / "hyrise.sif").resolve())`. -/
def dataSif (env : Env) : String :=
  env.resolve (env.dataDir ++ "/hyrise.sif")

/-- The search loop of `find_singularity_container` (container_utils.py:72-78):
skip falsy entries, resolve each entry, return the first resolved path that
exists on disk. -/
def firstExisting (env : Env) : List String → Option String
  | [] => none
  | p :: rest =>
    if p = "" then firstExisting env rest
    else if env.pathExists (env.resolve p) then some (env.resolve p)
    else firstExisting env rest

/-- `find_singularity_container` (container_utils.py:60-78). -/
def find_singularity_container (env : Env) (search_paths : Option (List String)) :
    Option String :=
  let paths :=
    match search_paths with
    | none => [cwdSif env, dataSif env]
    | some ps => ps
  firstExisting env paths

/-- `resolve_container_path` (config.py:91-103): the explicit container path
after CLI/config/env precedence, coerced through
`Path(p).expanduser().resolve()`; the config-file and environment-variable
fallbacks are folded into the single already-selected argument, which is all
the search-order claims depend on. -/
def resolve_container_path (env : Env) (cli_container_path : Option String) :
    Option String :=
  match cli_container_path with
  | some p => if p = "" then none else some (env.resolve p)
  | none => none

/-- `get_container_search_paths` (config.py:135-177): yield the explicit path,
then the cwd candidate, then the data-dir candidate, then each configured
extra path (resolved), skipping any candidate already yielded (the `seen`
set). -/
def get_container_search_paths (env : Env) (cli_container_path : Option String)
    (extras : List String) : List String :=
  let l0 := (resolve_container_path env cli_container_path).toList
  let l1 := if cwdSif env ∈ l0 then l0 else l0 ++ [cwdSif env]
  let l2 := if dataSif env ∈ l1 then l1 else l1 ++ [dataSif env]
  extras.foldl
    (fun acc e =>
      if e = "" then acc
      else if env.resolve e ∈ acc then acc
      else acc ++ [env.resolve e])
    l2

/-- The Container Locator: `find_singularity_container` applied to the
deterministic list produced by `get_container_search_paths`. -/
def locate_container (env : Env) (cli_container_path : Option String)
    (extras : List String) : Option String :=
  find_singularity_container env
    (some (get_container_search_paths env cli_container_path extras))

/-- The claimed fixed candidate order, duplicates not removed:
explicit path, `<cwd>/hyrise.sif`, `<data-dir>/hyrise.sif`, then each extra
configured path in order. -/
def rawSearchCandidates (env : Env) (cli_container_path : Option String)
    (extras : List String) : List String :=
  (resolve_container_path env cli_container_path).toList
    ++ [cwdSif env, dataSif env]
    ++ extras.filterMap (fun e => if e = "" then none else some (env.resolve e))

/-- `verify_container` (container_builder.py:324-390): missing image file is
an immediate failure; otherwise `runtime test image` exiting 0 passes, and on
a non-zero test the fallback `runtime exec image multiqc --version` exiting 0
passes; otherwise the verification fails. -/
def verify_container (env : Env) (container_path singularity_path : String) : Bool :=
  if env.pathExists container_path = false then false
  else if env.runExit [singularity_path, "test", container_path] = 0 then true
  else if env.runExit
      [singularity_path, "exec", container_path, "multiqc", "--version"] = 0 then true
  else false

/-- Lines 147-153 of container_utils.py: an explicit `container_path` is used
only when truthy and existing after resolution; otherwise fall back to
`find_singularity_container(container_search_paths)`. -/
def resolveContainerPath (env : Env) (container_path : Option String)
    (container_search_paths : Option (List String)) : Option String :=
  let explicitRes : Option String :=
    match container_path with
    | some p =>
      if p = "" then none
      else if env.pathExists (env.resolve p) then some (env.resolve p)
      else none
    | none => none
  match explicitRes with
  | some c => some c
  | none => find_singularity_container env container_search_paths

/-- Result dictionary of `ensure_dependencies` (container_utils.py:178-187). -/
structure DepsResult where
  multiqc_available : Bool
  sierra_local_available : Bool
  singularity_available : Bool
  runtime_name : Option String
  runtime_path : Option String
  container_path : Option String
  use_container : Bool
  missing_dependencies : List String
deriving Repr, DecidableEq

/-- `ensure_dependencies` (container_utils.py:125-187). -/
def ensure_dependencies (env : Env) (use_container : Option Bool)
    (required_tools : Option (List String)) (container_path : Option String)
    (container_runtime : Option String)
    (container_search_paths : Option (List String)) : DepsResult :=
  let rt := detect_container_runtime env container_runtime
  let resolved_container_path :=
    resolveContainerPath env container_path container_search_paths
  let required := required_tools.getD ["multiqc", "sierralocal"]
  let multiqc_available := (env.which "multiqc").isSome
  let sierra_local_available := (env.which "sierralocal").isSome
  let missing_dependencies :=
    (if "multiqc" ∈ required ∧ multiqc_available = false then ["multiqc"] else [])
      ++ (if "sierralocal" ∈ required ∧ sierra_local_available = false then
            ["sierralocal"] else [])
  let uc :=
    match use_container with
    | some true => true
    | some false => false
    | none =>
      (!missing_dependencies.isEmpty) && pyTruthyOpt rt.2
        && pyTruthyOpt resolved_container_path
  { multiqc_available := multiqc_available
    sierra_local_available := sierra_local_available
    singularity_available := rt.2.isSome
    runtime_name := rt.1
    runtime_path := rt.2
    container_path := resolved_container_path
    use_container := uc
    missing_dependencies := missing_dependencies }

/-- The build argv assembled by `build_container`
(container_builder.py:239-254): `[sudo] runtime build [--force] out def`. -/
def buildCmd (def_file output_path singularity_path : String)
    (use_sudo force : Bool) : List String :=
  (if use_sudo then ["sudo"] else []) ++ [singularity_path, "build"]
    ++ (if force then ["--force"] else []) ++ [output_path, def_file]

/-- `build_container` (container_builder.py:217-287), with the filesystem as
an existence predicate and the spawned subprocess argvs recorded.  The effect
of the external `runtime build` subprocess is modelled per spec section 4.6:
on exit 0 the image file at `output_path` is the created artifact. -/
def build_container (env : Env) (ex : String → Bool)
    (def_file output_path singularity_path : String) (use_sudo force : Bool) :
    Bool × List (List String) × (String → Bool) :=
  if ex output_path && !force then (true, [], ex)
  else
    let code := env.runExit (buildCmd def_file output_path singularity_path use_sudo force)
    ((code == 0 : Bool),
     [buildCmd def_file output_path singularity_path use_sudo force],
     if code = 0 then fun p => if p = output_path then true else ex p else ex)

/-! ### Staged-workspace SierraLocal invocation (sierra.py) -/

/-- Host filesystem: file contents by path, plus the set of directories. -/
structure FS where
  files : String → Option (List Nat)
  dirs : List String

/-- Oracle for the staged invocation: `copyFail src dst` is the exception
message raised by `shutil.copy2(src, dst)` when it fails, `runExit` the exit
code of an argv, and `produced` the bytes the container run writes to the
expected workspace output file (`none` when the tool does not produce it). -/
structure SEnv where
  copyFail : String → String → Option String
  runExit : List String → Int
  produced : Option (List Nat)

/-- Overwrite one path of the filesystem map. -/
def FS.setFile (fs : FS) (p : String) (v : Option (List Nat)) : FS :=
  { fs with files := fun q => if q = p then v else fs.files q }

/-- Split a character list on `'/'` (helper for `basename`). -/
def splitSlash : List Char → List (List Char)
  | [] => [[]]
  | x :: xs =>
    match splitSlash xs with
    | [] => [[]]
    | h :: t => if x = '/' then [] :: h :: t else (x :: h) :: t

/-- `os.path.basename` for the slash-separated paths used here: the component
after the last slash. -/
def basename (p : String) : String :=
  match (splitSlash p.data).getLast? with
  | some l => ⟨l⟩
  | none => p

/-- String prefix test (as character lists). -/
def strIsPrefix (p s : String) : Bool :=
  p.data.isPrefixOf s.data

/-- `os.path.join` for one component. -/
def joinPath (d f : String) : String := d ++ "/" ++ f

/-- `shutil.copy2(src, dst)`: byte-for-byte duplication of the source file's
contents at the destination path, or the oracle's exception. -/
def copy2 (env : SEnv) (fs : FS) (src dst : String) : Except String FS :=
  match env.copyFail src dst with
  | some m => .error m
  | none => .ok (fs.setFile dst (fs.files src))

/-- The staging loop (sierra.py:386-390): copy each input into the workspace
by basename, aborting on the first exception (the filesystem reached so far
is carried with the error). -/
def stageFiles (env : SEnv) (temp_dir : String) :
    FS → List String → Except (String × FS) FS
  | fs, [] => .ok fs
  | fs, f :: rest =>
    match copy2 env fs f (joinPath temp_dir (basename f)) with
    | .error m => .error (m, fs)
    | .ok fs' => stageFiles env temp_dir fs' rest

/-- Staging of one optional auxiliary file (sierra.py:398-408). -/
def stageOpt (env : SEnv) (temp_dir : String) (fs : FS) :
    Option String → Except (String × FS) FS
  | none => .ok fs
  | some f =>
    match copy2 env fs f (joinPath temp_dir (basename f)) with
    | .error m => .error (m, fs)
    | .ok fs' => .ok fs'

/-- All staging copies in source order: FASTA inputs, then the XML file, then
the APOBEC JSON file (sierra.py:386-408). -/
def stageAll (env : SEnv) (temp_dir : String) (fs : FS) (fastas : List String)
    (xml json_file : Option String) : Except (String × FS) FS :=
  match stageFiles env temp_dir fs fastas with
  | .error e => .error e
  | .ok fs1 =>
    match stageOpt env temp_dir fs1 xml with
    | .error e => .error e
    | .ok fs2 => stageOpt env temp_dir fs2 json_file

/-- The `sierralocal` argv assembled for container execution
(sierra.py:382-415): output, xml, json and alignment options plus the input
basenames. -/
def sierraCmdParts (output_name : String) (xml json_file : Option String)
    (alignment : String) (fastas : List String) : List String :=
  ["sierralocal", "-o", output_name]
    ++ (match xml with | some x => ["-xml", basename x] | none => [])
    ++ (match json_file with | some j => ["-json", basename j] | none => [])
    ++ (if alignment = "" then [] else ["-alignment", alignment])
    ++ fastas.map basename

/-- The full container argv (sierra.py:417-426). -/
def sierraFullCmd (runtime_path temp_dir container_path : String)
    (parts : List String) : List String :=
  [runtime_path, "exec", "--bind", temp_dir, "--pwd", temp_dir, container_path]
    ++ parts

/-- Effect of the container run on the workspace: the tool either writes the
expected output file or does not. -/
def applyRun (env : SEnv) (fs : FS) (temp_output : String) : FS :=
  match env.produced with
  | some bytes => fs.setFile temp_output (some bytes)
  | none => fs

/-- Teardown of `tempfile.TemporaryDirectory` on leaving the `with` block:
the workspace directory and everything beneath it are removed; runs on every
exit path. -/
def cleanupWorkspace (temp_dir : String) (fs : FS) : FS :=
  { files := fun p => if strIsPrefix (temp_dir ++ "/") p then none else fs.files p
    dirs := fs.dirs.filter (fun d => d ≠ temp_dir) }

/-- The fields of the `results` dictionary of `run_sierra_local` that the
container branch assigns (sierra.py:272-278, 433-441, 477-483). -/
structure SierraResult where
  success : Bool
  output_path : Option String
  container_used : Bool
  error : Option String
deriving Repr, DecidableEq

/-- `str(subprocess.CalledProcessError(code, cmd))`. -/
def cpeMsg (cmd : List String) (code : Int) : String :=
  "Command " ++ String.intercalate " " cmd
    ++ " returned non-zero exit status " ++ toString code ++ "."

/-- Error set by the `subprocess.CalledProcessError` handler
(sierra.py:477-479). -/
def sierraExecFailedMsg (cmd : List String) (code : Int) : String :=
  "SierraLocal execution failed: " ++ cpeMsg cmd code

/-- Error set when the subprocess exits 0 but the workspace output file is
absent (sierra.py:441). -/
def sierraOutputNotCreatedMsg : String :=
  "Output file was not created in container"

/-- Error set by the generic exception handler (sierra.py:481-483). -/
def sierraGenericErrorMsg (m : String) : String :=
  "Error running SierraLocal: " ++ m

/-- The container-execution branch of `run_sierra_local`
(sierra.py:379-441 together with its exception handlers at 477-483):
create the workspace, stage the inputs, run `runtime exec --bind ws --pwd ws
image sierralocal ...`, copy the expected output back on success, and tear
the workspace down on every exit path. -/
def run_sierra_local_container (env : SEnv) (fs : FS)
    (temp_dir runtime_path container_path : String) (fasta_abs : List String)
    (output_abs : String) (xml json_file : Option String) (alignment : String) :
    SierraResult × FS :=
  let fs0 : FS := { fs with dirs := temp_dir :: fs.dirs }
  let output_name := basename output_abs
  let temp_output := joinPath temp_dir output_name
  match stageAll env temp_dir fs0 fasta_abs xml json_file with
  | .error (m, fsE) =>
    ({ success := false, output_path := none, container_used := false
       error := some (sierraGenericErrorMsg m) },
     cleanupWorkspace temp_dir fsE)
  | .ok fs1 =>
    let cmd := sierraFullCmd runtime_path temp_dir container_path
      (sierraCmdParts output_name xml json_file alignment fasta_abs)
    let code := env.runExit cmd
    let fs2 := applyRun env fs1 temp_output
    if code = 0 then
      match fs2.files temp_output with
      | some _ =>
        match copy2 env fs2 temp_output output_abs with
        | .error m =>
          ({ success := false, output_path := none, container_used := false
             error := some (sierraGenericErrorMsg m) },
           cleanupWorkspace temp_dir fs2)
        | .ok fs3 =>
          ({ success := true, output_path := some output_abs
             container_used := true, error := none },
           cleanupWorkspace temp_dir fs3)
      | none =>
        ({ success := false, output_path := none, container_used := false
           error := some sierraOutputNotCreatedMsg },
         cleanupWorkspace temp_dir fs2)
    else
      ({ success := false, output_path := none, container_used := false
         error := some (sierraExecFailedMsg cmd code) },
       cleanupWorkspace temp_dir fs2)

/-! ### Direct-bind invocation `run_with_singularity` -/

/-- The `command` argument of `run_with_singularity`: either a string (split
on whitespace) or an argv list. -/
inductive SCmd where
  | str (s : String)
  | argv (l : List String)

/-- Python `str.split()`: whitespace runs as separators, no empty fields. -/
def pySplit (s : String) : List String :=
  (s.split Char.isWhitespace).filter (fun t => t ≠ "")

/-- `command.split() if isinstance(command, str) else list(command)`. -/
def SCmd.toArgv : SCmd → List String
  | .str s => pySplit s
  | .argv l => l

/-- Exceptions escaping `run_with_singularity`: the explicit `ValueError`
raises, or `subprocess.run(..., check=True)` failing after launch. -/
inductive RwsErr where
  | valueError (msg : String)
  | calledProcessError (cmd : List String) (code : Int)
deriving Repr, DecidableEq

/-- The `runtime exec` argv assembled by `run_with_singularity`
(container_utils.py:113-121): `--bind` for each existing resolved bind target
(default: the cwd), then the container and the command argv.  Independent of
the verification outcome. -/
def rwsExecCmd (env : Env) (runtime_path container_path : String)
    (command : SCmd) (bind_paths : Option (List String)) : List String :=
  let targets := (bind_paths.getD [env.cwd]).map env.resolve
  let bind_args := targets.foldr
    (fun t acc => if env.pathExists t then "--bind" :: t :: acc else acc) []
  runtime_path :: "exec" :: (bind_args ++ container_path :: command.toArgv)

/-- Runtime resolution at the top of `run_with_singularity`
(container_utils.py:96-97): detect when no runtime path was supplied. -/
def rwsResolvedRuntime (env : Env) (runtime_path : Option String) : Option String :=
  match runtime_path with
  | none => (detect_container_runtime env none).2
  | some r => some r

/-- `run_with_singularity` (container_utils.py:87-122).  Returns the outcome
(the completed process as its argv and exit code, or the raised exception),
the list of tool subprocess argvs actually launched, and the warning log
lines. -/
def run_with_singularity (env : Env) (container_path : String) (command : SCmd)
    (bind_paths : Option (List String)) (runtime_path : Option String) :
    Except RwsErr (List String × Int) × List (List String) × List String :=
  match rwsResolvedRuntime env runtime_path with
  | none =>
    (.error (.valueError "No supported container runtime found (apptainer/singularity)"),
     [], [])
  | some r =>
    if r = "" then
      (.error (.valueError "No supported container runtime found (apptainer/singularity)"),
       [], [])
    else if env.pathExists container_path = false then
      (.error (.valueError ("Container not found at " ++ container_path)), [], [])
    else
      let logs :=
        if verify_container env container_path r then []
        else ["Container verification failed but will attempt to run it anyway"]
      if command.toArgv = [] then
        (.error (.valueError "Container command cannot be empty"), [], logs)
      else
        let cmd := rwsExecCmd env r container_path command bind_paths
        let code := env.runExit cmd
        (if code = 0 then .ok (cmd, 0)
         else .error (.calledProcessError cmd code),
         [cmd], logs)

/-! ### Concrete environments used by counterexamples and witnesses -/

/-- Environment in which `apptainer` is on PATH but its version query exits 1
(a broken or stub binary). -/
def cexEnvNoVersion : Env :=
  { which := fun s => if s = "apptainer" then some "/usr/bin/apptainer" else none
    versionExit := fun _ => 1
    pathExists := fun _ => false
    resolve := id
    cwd := "/work"
    dataDir := "/data"
    runExit := fun _ => 1 }

/-- Environment with a working `apptainer`, a container image at
`/work/hyrise.sif`, and no other executables on PATH. -/
def cexEnvToolGap : Env :=
  { which := fun s => if s = "apptainer" then some "/usr/bin/apptainer" else none
    versionExit := fun _ => 0
    pathExists := fun p => p == "/work/hyrise.sif"
    resolve := id
    cwd := "/work"
    dataDir := "/data"
    runExit := fun _ => 0 }

/-- Environment in which the image's embedded self-test and the in-container
version query both exit 1 for `test`/`--version` argvs, while plain exec
argvs exit 0; the image file and the cwd exist. -/
def envVerifyFallback : Env :=
  { which := fun s => if s = "apptainer" then some "/usr/bin/apptainer" else none
    versionExit := fun _ => 0
    pathExists := fun p => (p == "/img/hyrise.sif") || (p == "/work")
    resolve := id
    cwd := "/work"
    dataDir := "/data"
    runExit := fun cmd =>
      if "test" ∈ cmd then 1 else if "--version" ∈ cmd then 1 else 0 }

/-- Staged-invocation oracle where nothing fails and the container run writes
the expected output bytes. -/
def sEnvOk : SEnv :=
  { copyFail := fun _ _ => none
    runExit := fun _ => 0
    produced := some [55, 56] }

/-- Staged-invocation oracle where the tool exits 0 but never writes the
expected output file. -/
def sEnvNoOut : SEnv :=
  { copyFail := fun _ _ => none
    runExit := fun _ => 0
    produced := none }

/-- Empty host filesystem. -/
def fsEmpty : FS :=
  { files := fun _ => none
    dirs := [] }

end HyRISE

namespace HyRISE

/-! ### Locator lemmas and claim C2 -/

theorem firstExisting_append (env : Env) (a b : List String) :
    firstExisting env (a ++ b) =
      match firstExisting env a with
      | some v => some v
      | none => firstExisting env b := by
  induction a with
  | nil => simp [firstExisting]
  | cons p rest ih =>
    simp only [List.cons_append, firstExisting]
    split
    · exact ih
    · split
      · rfl
      · exact ih

theorem firstExisting_none_forall (env : Env) (a : List String)
    (h : firstExisting env a = none) :
    ∀ p ∈ a, p = "" ∨ env.pathExists (env.resolve p) = false := by
  induction a with
  | nil => intro p hp; cases hp
  | cons q rest ih =>
    intro p hp
    simp only [firstExisting] at h
    rcases List.mem_cons.1 hp with rfl | hmem
    · by_cases hq : p = ""
      · exact Or.inl hq
      · rw [if_neg hq] at h
        by_cases he : env.pathExists (env.resolve p)
        · rw [if_pos he] at h; cases h
        · exact Or.inr (by simpa using he)
    · refine ih ?_ p hmem
      by_cases hq : q = ""
      · rwa [if_pos hq] at h
      · rw [if_neg hq] at h
        by_cases he : env.pathExists (env.resolve q)
        · rw [if_pos he] at h; cases h
        · rwa [if_neg he] at h

theorem firstExisting_dup (env : Env) {r : String} {acc : List String}
    (h : r ∈ acc) (rest : List String) :
    firstExisting env (acc ++ r :: rest) = firstExisting env (acc ++ rest) := by
  rw [firstExisting_append, firstExisting_append]
  cases hfe : firstExisting env acc with
  | some v => rfl
  | none =>
    have hr := firstExisting_none_forall env acc hfe r h
    simp only [firstExisting]
    rcases hr with h1 | h2
    · simp [h1]
    · by_cases he : r = "" <;> simp [he, h2]

theorem firstExisting_gcsp_foldl (env : Env) (extras : List String) :
    ∀ acc : List String,
      firstExisting env
        (extras.foldl
          (fun acc e =>
            if e = "" then acc
            else if env.resolve e ∈ acc then acc
            else acc ++ [env.resolve e]) acc) =
      firstExisting env
        (acc ++ extras.filterMap
          (fun e => if e = "" then none else some (env.resolve e))) := by
  induction extras with
  | nil => intro acc; simp
  | cons e es ih =>
    intro acc
    simp only [List.foldl_cons, List.filterMap_cons]
    by_cases he : e = ""
    · simpa [he] using ih acc
    · simp only [he, if_neg, reduceIte]
      by_cases hm : env.resolve e ∈ acc
      · rw [if_pos hm, ih acc]
        exact (firstExisting_dup env hm _).symm
      · rw [if_neg hm, ih (acc ++ [env.resolve e])]
        simp

/-- Claim C2: the Container Locator walks exactly the fixed candidate order
`[explicit, <cwd>/hyrise.sif, <data-dir>/hyrise.sif, extras...]` and returns
the first existing candidate; the cwd and data-dir candidates are checked
before any extra configured path even when extras are supplied (the
`seen`-set deduplication of `get_container_search_paths` never changes which
candidate is hit first). -/
theorem locate_container_fixed_order (env : Env)
    (cli_container_path : Option String) (extras : List String) :
    locate_container env cli_container_path extras =
      firstExisting env (rawSearchCandidates env cli_container_path extras) := by
  unfold locate_container find_singularity_container get_container_search_paths
    rawSearchCandidates
  simp only
  rw [firstExisting_gcsp_foldl]
  by_cases hc : cwdSif env ∈ (resolve_container_path env cli_container_path).toList
  · rw [if_pos hc]
    by_cases hd : dataSif env ∈ (resolve_container_path env cli_container_path).toList
    · rw [if_pos hd]
      have e1 := firstExisting_dup env (r := cwdSif env) hc
        (dataSif env :: extras.filterMap
          (fun e => if e = "" then none else some (env.resolve e)))
      have e2 := firstExisting_dup env (r := dataSif env) hd
        (extras.filterMap (fun e => if e = "" then none else some (env.resolve e)))
      simp only [List.append_assoc, List.cons_append, List.nil_append] at e1 e2 ⊢
      rw [e1, e2]
    · rw [if_neg hd]
      have e1 := firstExisting_dup env (r := cwdSif env) hc
        (dataSif env :: extras.filterMap
          (fun e => if e = "" then none else some (env.resolve e)))
      simp only [List.append_assoc, List.cons_append, List.nil_append] at e1 ⊢
      rw [e1]
  · rw [if_neg hc]
    by_cases hd : dataSif env ∈
        (resolve_container_path env cli_container_path).toList ++ [cwdSif env]
    · rw [if_pos hd]
      have e2 := firstExisting_dup env (r := dataSif env) hd
        (extras.filterMap (fun e => if e = "" then none else some (env.resolve e)))
      simp only [List.append_assoc, List.cons_append, List.nil_append] at e2 ⊢
      rw [← e2]
    · rw [if_neg hd]
      simp [List.append_assoc]

/-! ### Runtime detection: claim C1 -/

/-- Claim C1, counterexample: `detect_container_runtime` returns a candidate
that is found on the search path even though its version query exits with a
non-zero status — no version-query subprocess gates the result (the claim's
version-exit-0 condition is refuted at `cexEnvNoVersion` with preferred
runtime `apptainer`). -/
theorem detect_runtime_version_gate_refuted :
    ¬ ∀ (env : Env) (pref : Option String) (name path : String),
        detect_container_runtime env pref = (some name, some path) →
        env.versionExit path = 0 := by
  intro h
  have h2 := h cexEnvNoVersion (some "apptainer") "apptainer" "/usr/bin/apptainer"
    (by decide)
  exact absurd h2 (by decide)

/-- Claim C1, amended: `detect_container_runtime` examines candidates in the
order `[preferred] ++ ["apptainer", "singularity"]` with duplicates removed
keeping the first occurrence, and returns the first candidate found on the
search path together with its path; no version-query subprocess is consulted
(the version-exit-0 gate exists only in the separate `find_singularity_binary`
helper, which probes `singularity` then `apptainer` and takes no preferred
runtime). -/
theorem detect_runtime_first_path_hit (env : Env) (pref : Option String) :
    detect_container_runtime env pref =
      match (runtimeCandidates pref).find? (fun c => pyTruthyOpt (env.which c)) with
      | some c => (some c, env.which c)
      | none => (none, none) := by
  unfold detect_container_runtime
  generalize runtimeCandidates pref = l
  induction l with
  | nil => simp [detectGo]
  | cons c rest ih =>
    simp only [detectGo, List.find?]
    by_cases hp : pyTruthyOpt (env.which c)
    · simp [hp]
    · simp only [Bool.not_eq_true] at hp
      simp [hp, ih]

/-! ### Execution-mode resolution: claims C3, C4, C9 -/

/-- Claim C3: an explicit `use_container` override is returned unchanged —
forcing container mode yields `use_container = true` and forcing native mode
yields `use_container = false`, for every environment (every probe, detector
and locator outcome) and every argument combination. -/
theorem ensure_force_override (env : Env) (rt : Option (List String))
    (cp cr : Option String) (sp : Option (List String)) :
    (ensure_dependencies env (some true) rt cp cr sp).use_container = true ∧
    (ensure_dependencies env (some false) rt cp cr sp).use_container = false :=
  ⟨rfl, rfl⟩

/-- Claim C4, counterexample: in auto mode the resolver does not containerize
for a missing required tool outside the supported pair.  With required tools
`["nucamino"]`, `nucamino` absent from PATH, a runtime detected and a
container image located, the claimed equivalence forces
`use_container = true`, but `ensure_dependencies` returns
`use_container = false` (its missing-tool scan only ever checks `multiqc` and
`sierralocal`). -/
theorem resolve_auto_missing_refuted :
    ¬ ∀ (env : Env) (required : List String) (cp cr : Option String)
        (sp : Option (List String)),
        ((ensure_dependencies env none (some required) cp cr sp).use_container = true ↔
          (∃ t ∈ required, env.which t = none) ∧
          pyTruthyOpt (detect_container_runtime env cr).2 = true ∧
          pyTruthyOpt (resolveContainerPath env cp sp) = true) := by
  intro h
  have h2 := (h cexEnvToolGap ["nucamino"] none none none).2
  have h3 : (∃ t ∈ ["nucamino"], cexEnvToolGap.which t = none) ∧
      pyTruthyOpt (detect_container_runtime cexEnvToolGap none).2 = true ∧
      pyTruthyOpt (resolveContainerPath cexEnvToolGap none none) = true := by
    refine ⟨⟨"nucamino", by decide, by decide⟩, by decide, by decide⟩
  exact absurd (h2 h3) (by decide)

/-- Claim C4, amended: in auto mode, and for required-tool lists drawn from
the supported pair `multiqc` / `sierralocal` (which includes the default
list), `use_container` is true exactly when some required tool is missing
from PATH and a container runtime was detected and a container image was
located; in particular with zero missing tools it is false.  For required
tools outside that pair the resolver never counts them as missing (see the
counterexample). -/
theorem ensure_auto_supported_tools (env : Env)
    (required_tools : Option (List String)) (cp cr : Option String)
    (sp : Option (List String))
    (hsub : ∀ t ∈ required_tools.getD ["multiqc", "sierralocal"],
      t = "multiqc" ∨ t = "sierralocal") :
    ((ensure_dependencies env none required_tools cp cr sp).use_container = true ↔
      (∃ t ∈ required_tools.getD ["multiqc", "sierralocal"], env.which t = none) ∧
      pyTruthyOpt (detect_container_runtime env cr).2 = true ∧
      pyTruthyOpt (resolveContainerPath env cp sp) = true) := by
  have toNone : ∀ o : Option String, o.isSome = false → o = none := by
    intro o ho
    cases o with
    | none => rfl
    | some v => simp at ho
  unfold ensure_dependencies
  simp only [Bool.and_eq_true, Bool.not_eq_true']
  constructor
  · rintro ⟨⟨hmiss, hrt⟩, hcp⟩
    refine ⟨?_, hrt, hcp⟩
    by_cases h1 : "multiqc" ∈ required_tools.getD ["multiqc", "sierralocal"] ∧
        (env.which "multiqc").isSome = false
    · exact ⟨"multiqc", h1.1, toNone _ h1.2⟩
    · by_cases h2 : "sierralocal" ∈ required_tools.getD ["multiqc", "sierralocal"] ∧
          (env.which "sierralocal").isSome = false
      · exact ⟨"sierralocal", h2.1, toNone _ h2.2⟩
      · rw [if_neg h1, if_neg h2] at hmiss
        simp at hmiss
  · rintro ⟨⟨t, ht, hnone⟩, hrt, hcp⟩
    refine ⟨⟨?_, hrt⟩, hcp⟩
    rcases hsub t ht with rfl | rfl
    · rw [if_pos ⟨ht, by simp [hnone]⟩]
      simp
    · have hB : (if "sierralocal" ∈ required_tools.getD ["multiqc", "sierralocal"] ∧
          (env.which "sierralocal").isSome = false then ["sierralocal"] else [])
          = ["sierralocal"] := if_pos ⟨ht, by simp [hnone]⟩
      rw [hB]
      cases hif : (if "multiqc" ∈ required_tools.getD ["multiqc", "sierralocal"] ∧
          (env.which "multiqc").isSome = false then ["multiqc"] else []) <;> simp

/-- Witness for the amended claim C4 at a concrete input: required tools
`["sierralocal"]` (a subset of the supported pair), `sierralocal` missing,
runtime and image present. -/
theorem ensure_auto_supported_tools_witness :
    (∀ t ∈ (some ["sierralocal"] : Option (List String)).getD
        ["multiqc", "sierralocal"], t = "multiqc" ∨ t = "sierralocal") ∧
    ((ensure_dependencies cexEnvToolGap none (some ["sierralocal"]) none none
        none).use_container = true ↔
      (∃ t ∈ (some ["sierralocal"] : Option (List String)).getD
          ["multiqc", "sierralocal"], cexEnvToolGap.which t = none) ∧
      pyTruthyOpt (detect_container_runtime cexEnvToolGap none).2 = true ∧
      pyTruthyOpt (resolveContainerPath cexEnvToolGap none none) = true) :=
  ⟨by decide,
   ensure_auto_supported_tools cexEnvToolGap (some ["sierralocal"]) none none
     none (by decide)⟩

/-- Claim C9: an explicit container path that does not exist on disk is
silently ignored — `ensure_dependencies` raises nothing (it is a total
function of the environment), returns exactly what it would have returned
with no explicit path at all, and its `container_path` field is the
first existing default-search candidate or `none`; nothing in the result
records that the explicit path was dropped. -/
theorem ensure_missing_explicit_silent_fallback (env : Env) (u : Option Bool)
    (rt : Option (List String)) (cr : Option String)
    (sp : Option (List String)) (p : String) (hp : p ≠ "")
    (hmiss : env.pathExists (env.resolve p) = false) :
    ensure_dependencies env u rt (some p) cr sp =
      ensure_dependencies env u rt none cr sp ∧
    (ensure_dependencies env u rt (some p) cr sp).container_path =
      find_singularity_container env sp := by
  have hr : resolveContainerPath env (some p) sp = resolveContainerPath env none sp := by
    unfold resolveContainerPath
    simp [hp, hmiss]
  have hr2 : resolveContainerPath env (some p) sp = find_singularity_container env sp := by
    unfold resolveContainerPath
    simp [hp, hmiss]
  constructor
  · unfold ensure_dependencies
    rw [hr]
  · unfold ensure_dependencies
    simpa using hr2

/-- Witness for claim C9 at a concrete input: the explicit path `/nope.sif`
does not exist, the default cwd candidate `/work/hyrise.sif` does, and both
calls agree with `container_path = /work/hyrise.sif`. -/
theorem ensure_missing_explicit_silent_fallback_witness :
    ensure_dependencies cexEnvToolGap none none (some "/nope.sif") none none =
      ensure_dependencies cexEnvToolGap none none none none none ∧
    (ensure_dependencies cexEnvToolGap none none (some "/nope.sif") none
        none).container_path =
      find_singularity_container cexEnvToolGap none :=
  ensure_missing_explicit_silent_fallback cexEnvToolGap none none none none
    "/nope.sif" (by decide) (by decide)

/-! ### Container verification: claim C6 -/

/-- Claim C6: when the image file exists, `verify_container` succeeds exactly
when the image's embedded self-test (`runtime test image`) or the fallback
in-container version query (`runtime exec image multiqc --version`) exits 0;
it returns false only when both checks fail. -/
theorem verify_container_two_tier (env : Env) (cp sp : String)
    (h : env.pathExists cp = true) :
    (verify_container env cp sp = true ↔
      env.runExit [sp, "test", cp] = 0 ∨
      env.runExit [sp, "exec", cp, "multiqc", "--version"] = 0) := by
  unfold verify_container
  rw [h]
  by_cases h1 : env.runExit [sp, "test", cp] = 0
  · simp [h1]
  · by_cases h2 : env.runExit [sp, "exec", cp, "multiqc", "--version"] = 0 <;>
      simp [h1, h2]

/-- Witness for claim C6 at a concrete input: the self-test exits 1 and the
fallback version query also fails in `envVerifyFallback` with argvs matched
by membership, so verification fails there; instantiating the theorem at the
existing image `/img/hyrise.sif` evaluates both sides. -/
theorem verify_container_two_tier_witness :
    envVerifyFallback.pathExists "/img/hyrise.sif" = true ∧
    (verify_container envVerifyFallback "/img/hyrise.sif" "/usr/bin/apptainer" = true ↔
      envVerifyFallback.runExit ["/usr/bin/apptainer", "test", "/img/hyrise.sif"] = 0 ∨
      envVerifyFallback.runExit
        ["/usr/bin/apptainer", "exec", "/img/hyrise.sif", "multiqc", "--version"] = 0) :=
  ⟨by decide,
   verify_container_two_tier envVerifyFallback "/img/hyrise.sif"
     "/usr/bin/apptainer" (by decide)⟩

/-! ### Container build: claim C7 -/

/-- Claim C7: `build_container` with `force = false` returns success and
spawns no subprocess whenever the output image already exists; consequently a
second `force = false` build after a successful first build spawns zero
subprocesses and succeeds, the filesystem unchanged. -/
theorem build_container_idempotent (env : Env) (ex : String → Bool)
    (def_file output_path singularity_path : String) (use_sudo : Bool) :
    (ex output_path = true →
      build_container env ex def_file output_path singularity_path use_sudo false
        = (true, [], ex)) ∧
    (∀ ok1 procs1 ex1,
      build_container env ex def_file output_path singularity_path use_sudo false
        = (ok1, procs1, ex1) →
      ok1 = true →
      build_container env ex1 def_file output_path singularity_path use_sudo false
        = (true, [], ex1)) := by
  constructor
  · intro h
    unfold build_container
    simp [h]
  · intro ok1 procs1 ex1 hb hok
    subst hok
    unfold build_container at hb ⊢
    by_cases h : ex output_path = true
    · rw [if_pos (by simp [h])] at hb
      simp only [Prod.mk.injEq] at hb
      obtain ⟨-, -, h3⟩ := hb
      rw [← h3]
      rw [if_pos (by simp [h])]
    · rw [if_neg (by simp [h])] at hb
      simp only [Prod.mk.injEq] at hb
      obtain ⟨h1, -, h3⟩ := hb
      have hcode : env.runExit
          (buildCmd def_file output_path singularity_path use_sudo false) = 0 := by
        simpa using h1
      have hex1 : ex1 output_path = true := by
        rw [← h3, if_pos hcode]
        simp
      rw [if_pos (by simp [hex1])]

/-- Witness for claim C7 at a concrete input: with no pre-existing image and
a build subprocess that exits 0, the second build is a subprocess-free
success. -/
theorem build_container_idempotent_witness :
    ((fun _ : String => false) "/out/hyrise.sif" = true →
      build_container cexEnvToolGap (fun _ => false) "/src/hyrise.def"
        "/out/hyrise.sif" "/usr/bin/apptainer" false false
        = (true, [], fun _ => false)) ∧
    (∀ ok1 procs1 ex1,
      build_container cexEnvToolGap (fun _ => false) "/src/hyrise.def"
        "/out/hyrise.sif" "/usr/bin/apptainer" false false = (ok1, procs1, ex1) →
      ok1 = true →
      build_container cexEnvToolGap ex1 "/src/hyrise.def" "/out/hyrise.sif"
        "/usr/bin/apptainer" false false = (true, [], ex1)) :=
  build_container_idempotent cexEnvToolGap (fun _ => false) "/src/hyrise.def"
    "/out/hyrise.sif" "/usr/bin/apptainer" false

/-! ### Direct-bind invocation: claim C10 -/

/-- Claim C10: `run_with_singularity` raises a `ValueError` — always before
launching the container command — only when no runtime is available, the
container file is missing, or the command is empty; whenever a truthy runtime
is resolved, the container file exists and the command is non-empty, the
`runtime exec` subprocess is launched with an argv that does not depend on
the verification outcome, and a failed verification contributes nothing but
the warning log line. -/
theorem run_with_singularity_verify_never_blocks (env : Env) (cp : String)
    (command : SCmd) (bp : Option (List String)) (rpArg : Option String) :
    (∀ m, (run_with_singularity env cp command bp rpArg).1
        = .error (.valueError m) →
      (run_with_singularity env cp command bp rpArg).2.1 = [] ∧
      (pyTruthyOpt (rwsResolvedRuntime env rpArg) = false ∨
        env.pathExists cp = false ∨ command.toArgv = [])) ∧
    (∀ r, rwsResolvedRuntime env rpArg = some r → r ≠ "" →
      env.pathExists cp = true → command.toArgv ≠ [] →
      (run_with_singularity env cp command bp rpArg).2.1
          = [rwsExecCmd env r cp command bp] ∧
      ((run_with_singularity env cp command bp rpArg).1
          = .ok (rwsExecCmd env r cp command bp, 0) ∨
        (run_with_singularity env cp command bp rpArg).1
          = .error (.calledProcessError (rwsExecCmd env r cp command bp)
              (env.runExit (rwsExecCmd env r cp command bp)))) ∧
      (verify_container env cp r = false →
        (run_with_singularity env cp command bp rpArg).2.2
          = ["Container verification failed but will attempt to run it anyway"])) := by
  unfold run_with_singularity
  cases hrp : rwsResolvedRuntime env rpArg with
  | none =>
    refine ⟨fun m _ => ⟨rfl, Or.inl (by simp [pyTruthyOpt])⟩, ?_⟩
    intro r hr
    cases hr
  | some r0 =>
    dsimp only
    by_cases hr0 : r0 = ""
    · subst hr0
      refine ⟨fun m _ => ⟨rfl, Or.inl (by simp [pyTruthyOpt])⟩, ?_⟩
      intro r hr hne
      cases hr
      exact absurd rfl hne
    · rw [if_neg hr0]
      by_cases hex : env.pathExists cp = false
      · rw [if_pos hex]
        refine ⟨fun m _ => ⟨rfl, Or.inr (Or.inl hex)⟩, ?_⟩
        rintro r hr - hex2
        rw [hex2] at hex
        cases hex
      · rw [if_neg hex]
        by_cases hempty : command.toArgv = []
        · rw [if_pos hempty]
          exact ⟨fun m _ => ⟨rfl, Or.inr (Or.inr hempty)⟩,
            fun r _ _ _ hne => absurd hempty hne⟩
        · rw [if_neg hempty]
          constructor
          · intro m hm
            exfalso
            by_cases hc : env.runExit (rwsExecCmd env r0 cp command bp) = 0 <;>
              simp [hc] at hm
          · rintro r hr - - -
            cases hr
            refine ⟨rfl, ?_, ?_⟩
            · by_cases hc : env.runExit (rwsExecCmd env r0 cp command bp) = 0
              · exact Or.inl (by simp [hc])
              · exact Or.inr (by simp [hc])
            · intro hv
              simp [hv]

/-- Witness for claim C10 at a concrete input: in `envVerifyFallback` the
verification fails (both tiers exit 1) yet the `exec` subprocess for
`echo hi` is launched and completes with exit 0. -/
theorem run_with_singularity_verify_never_blocks_witness :
    (∀ m, (run_with_singularity envVerifyFallback "/img/hyrise.sif"
        (.argv ["echo", "hi"]) none (some "/usr/bin/apptainer")).1
        = .error (.valueError m) →
      (run_with_singularity envVerifyFallback "/img/hyrise.sif"
        (.argv ["echo", "hi"]) none (some "/usr/bin/apptainer")).2.1 = [] ∧
      (pyTruthyOpt (rwsResolvedRuntime envVerifyFallback
          (some "/usr/bin/apptainer")) = false ∨
        envVerifyFallback.pathExists "/img/hyrise.sif" = false ∨
        (SCmd.argv ["echo", "hi"]).toArgv = [])) ∧
    (∀ r, rwsResolvedRuntime envVerifyFallback (some "/usr/bin/apptainer")
        = some r → r ≠ "" →
      envVerifyFallback.pathExists "/img/hyrise.sif" = true →
      (SCmd.argv ["echo", "hi"]).toArgv ≠ [] →
      (run_with_singularity envVerifyFallback "/img/hyrise.sif"
        (.argv ["echo", "hi"]) none (some "/usr/bin/apptainer")).2.1
          = [rwsExecCmd envVerifyFallback r "/img/hyrise.sif"
              (.argv ["echo", "hi"]) none] ∧
      ((run_with_singularity envVerifyFallback "/img/hyrise.sif"
        (.argv ["echo", "hi"]) none (some "/usr/bin/apptainer")).1
          = .ok (rwsExecCmd envVerifyFallback r "/img/hyrise.sif"
              (.argv ["echo", "hi"]) none, 0) ∨
        (run_with_singularity envVerifyFallback "/img/hyrise.sif"
          (.argv ["echo", "hi"]) none (some "/usr/bin/apptainer")).1
          = .error (.calledProcessError
              (rwsExecCmd envVerifyFallback r "/img/hyrise.sif"
                (.argv ["echo", "hi"]) none)
              (envVerifyFallback.runExit
                (rwsExecCmd envVerifyFallback r "/img/hyrise.sif"
                  (.argv ["echo", "hi"]) none)))) ∧
      (verify_container envVerifyFallback "/img/hyrise.sif" r = false →
        (run_with_singularity envVerifyFallback "/img/hyrise.sif"
          (.argv ["echo", "hi"]) none (some "/usr/bin/apptainer")).2.2
          = ["Container verification failed but will attempt to run it anyway"])) :=
  run_with_singularity_verify_never_blocks envVerifyFallback "/img/hyrise.sif"
    (.argv ["echo", "hi"]) none (some "/usr/bin/apptainer")

/-! ### Staged-workspace invocation: claims C5 and C8 -/

theorem cleanup_not_mem_dirs (t : String) (fs : FS) :
    t ∉ (cleanupWorkspace t fs).dirs := by
  simp [cleanupWorkspace]

theorem cleanup_files_under (t : String) (fs : FS) (q : String)
    (h : strIsPrefix (t ++ "/") q = true) :
    (cleanupWorkspace t fs).files q = none := by
  simp [cleanupWorkspace, h]

theorem cleanup_files_outside (t : String) (fs : FS) (q : String)
    (h : strIsPrefix (t ++ "/") q = false) :
    (cleanupWorkspace t fs).files q = fs.files q := by
  simp [cleanupWorkspace, h]

theorem outputMsg_ne_append (s : String) :
    sierraOutputNotCreatedMsg ≠ "SierraLocal execution failed: " ++ s := by
  obtain ⟨l⟩ := s
  intro h
  have hh : sierraOutputNotCreatedMsg.data.head?
      = (("SierraLocal execution failed: " ++ (⟨l⟩ : String)) : String).data.head? := by
    rw [h]
  have e1 : sierraOutputNotCreatedMsg.data.head? = some 'O' := rfl
  have e2 : (("SierraLocal execution failed: " ++ (⟨l⟩ : String)) : String).data.head?
      = some 'S' := rfl
  rw [e1, e2] at hh
  exact (by decide : (some 'O' : Option Char) ≠ some 'S') hh

/-- Claim C5: for every staged-workspace invocation, a successful run copies
the expected output file from the workspace to the caller-requested
destination with byte-identical contents (the destination holds exactly the
bytes the workspace output file held after the run), and the workspace
directory no longer exists afterwards — on every exit path: success,
subprocess failure, staging exception, or copy-back exception. -/
theorem sierra_staged_roundtrip_cleanup (env : SEnv) (fs : FS)
    (temp_dir rp cp : String) (fastas : List String) (out : String)
    (xml js : Option String) (al : String)
    (hout : strIsPrefix (temp_dir ++ "/") out = false) :
    ((run_sierra_local_container env fs temp_dir rp cp fastas out xml js al).1.success
        = true →
      ∃ bytes fs1,
        stageAll env temp_dir { fs with dirs := temp_dir :: fs.dirs } fastas xml js
          = .ok fs1 ∧
        (applyRun env fs1 (joinPath temp_dir (basename out))).files
          (joinPath temp_dir (basename out)) = some bytes ∧
        (run_sierra_local_container env fs temp_dir rp cp fastas out xml js al).2.files
          out = some bytes) ∧
    temp_dir ∉
      (run_sierra_local_container env fs temp_dir rp cp fastas out xml js al).2.dirs ∧
    (∀ q, strIsPrefix (temp_dir ++ "/") q = true →
      (run_sierra_local_container env fs temp_dir rp cp fastas out xml js al).2.files
        q = none) := by
  unfold run_sierra_local_container
  dsimp only
  cases hst : stageAll env temp_dir { fs with dirs := temp_dir :: fs.dirs }
      fastas xml js with
  | error e =>
    obtain ⟨m, fsE⟩ := e
    dsimp only
    exact ⟨fun hs => absurd hs (by simp), cleanup_not_mem_dirs _ _,
      fun q hq => cleanup_files_under _ _ q hq⟩
  | ok fs1 =>
    dsimp only
    by_cases hcode : env.runExit (sierraFullCmd rp temp_dir cp
        (sierraCmdParts (basename out) xml js al fastas)) = 0
    · rw [if_pos hcode]
      cases hfile : (applyRun env fs1 (joinPath temp_dir (basename out))).files
          (joinPath temp_dir (basename out)) with
      | none =>
        exact ⟨fun hs => absurd hs (by simp), cleanup_not_mem_dirs _ _,
          fun q hq => cleanup_files_under _ _ q hq⟩
      | some bytes =>
        dsimp only
        cases hc2 : copy2 env (applyRun env fs1 (joinPath temp_dir (basename out)))
            (joinPath temp_dir (basename out)) out with
        | error m =>
          exact ⟨fun hs => absurd hs (by simp), cleanup_not_mem_dirs _ _,
            fun q hq => cleanup_files_under _ _ q hq⟩
        | ok fs3 =>
          refine ⟨fun _ => ⟨bytes, fs1, rfl, hfile, ?_⟩, cleanup_not_mem_dirs _ _,
            fun q hq => cleanup_files_under _ _ q hq⟩
          dsimp only
          rw [cleanup_files_outside _ _ _ hout]
          unfold copy2 at hc2
          cases hcf : env.copyFail (joinPath temp_dir (basename out)) out with
          | some m => rw [hcf] at hc2; cases hc2
          | none =>
            rw [hcf] at hc2
            cases hc2
            simp [FS.setFile, hfile]
    · rw [if_neg hcode]
      exact ⟨fun hs => absurd hs (by simp), cleanup_not_mem_dirs _ _,
        fun q hq => cleanup_files_under _ _ q hq⟩

/-- Witness for claim C5 at a concrete input: one FASTA input, no failures,
output bytes `[55, 56]` produced by the container run. -/
theorem sierra_staged_roundtrip_cleanup_witness :
    strIsPrefix ("/tmp/ws" ++ "/") "/res/a.json" = false ∧
    (((run_sierra_local_container sEnvOk fsEmpty "/tmp/ws" "/usr/bin/apptainer"
        "/img/hyrise.sif" ["/data/a.fasta"] "/res/a.json" none none
        "post").1.success = true →
      ∃ bytes fs1,
        stageAll sEnvOk "/tmp/ws" { fsEmpty with dirs := "/tmp/ws" :: fsEmpty.dirs }
          ["/data/a.fasta"] none none = .ok fs1 ∧
        (applyRun sEnvOk fs1 (joinPath "/tmp/ws" (basename "/res/a.json"))).files
          (joinPath "/tmp/ws" (basename "/res/a.json")) = some bytes ∧
        (run_sierra_local_container sEnvOk fsEmpty "/tmp/ws" "/usr/bin/apptainer"
          "/img/hyrise.sif" ["/data/a.fasta"] "/res/a.json" none none
          "post").2.files "/res/a.json" = some bytes) ∧
    "/tmp/ws" ∉
      (run_sierra_local_container sEnvOk fsEmpty "/tmp/ws" "/usr/bin/apptainer"
        "/img/hyrise.sif" ["/data/a.fasta"] "/res/a.json" none none "post").2.dirs ∧
    (∀ q, strIsPrefix ("/tmp/ws" ++ "/") q = true →
      (run_sierra_local_container sEnvOk fsEmpty "/tmp/ws" "/usr/bin/apptainer"
        "/img/hyrise.sif" ["/data/a.fasta"] "/res/a.json" none none
        "post").2.files q = none)) :=
  ⟨by decide,
   sierra_staged_roundtrip_cleanup sEnvOk fsEmpty "/tmp/ws" "/usr/bin/apptainer"
     "/img/hyrise.sif" ["/data/a.fasta"] "/res/a.json" none none "post"
     (by decide)⟩

/-- Claim C8: when the staged container subprocess exits 0 but the expected
output file is absent from the workspace, the invoker fails with the distinct
"output not produced" error; a non-zero subprocess exit fails with the
"SierraLocal execution failed" error instead, and the two error messages are
never equal. -/
theorem sierra_output_not_produced_distinct (env : SEnv) (fs fs1 : FS)
    (temp_dir rp cp : String) (fastas : List String) (out : String)
    (xml js : Option String) (al : String)
    (hst : stageAll env temp_dir { fs with dirs := temp_dir :: fs.dirs } fastas xml js
      = .ok fs1)
    (hexit : env.runExit (sierraFullCmd rp temp_dir cp
      (sierraCmdParts (basename out) xml js al fastas)) = 0)
    (habs : (applyRun env fs1 (joinPath temp_dir (basename out))).files
      (joinPath temp_dir (basename out)) = none) :
    (run_sierra_local_container env fs temp_dir rp cp fastas out xml js al).1.success
      = false ∧
    (run_sierra_local_container env fs temp_dir rp cp fastas out xml js al).1.error
      = some sierraOutputNotCreatedMsg ∧
    (∀ (env2 : SEnv) (g g1 : FS),
      stageAll env2 temp_dir { g with dirs := temp_dir :: g.dirs } fastas xml js
        = .ok g1 →
      env2.runExit (sierraFullCmd rp temp_dir cp
        (sierraCmdParts (basename out) xml js al fastas)) ≠ 0 →
      (run_sierra_local_container env2 g temp_dir rp cp fastas out xml js al).1.error
        = some (sierraExecFailedMsg
            (sierraFullCmd rp temp_dir cp
              (sierraCmdParts (basename out) xml js al fastas))
            (env2.runExit (sierraFullCmd rp temp_dir cp
              (sierraCmdParts (basename out) xml js al fastas))))) ∧
    (∀ (cmd2 : List String) (code : Int),
      sierraOutputNotCreatedMsg ≠ sierraExecFailedMsg cmd2 code) := by
  refine ⟨?_, ?_, ?_, fun cmd2 code => outputMsg_ne_append (cpeMsg cmd2 code)⟩
  · unfold run_sierra_local_container
    dsimp only
    rw [hst]
    dsimp only
    rw [if_pos hexit, habs]
  · unfold run_sierra_local_container
    dsimp only
    rw [hst]
    dsimp only
    rw [if_pos hexit, habs]
  · intro env2 g g1 hst2 hne
    unfold run_sierra_local_container
    dsimp only
    rw [hst2]
    dsimp only
    rw [if_neg hne]

/-- Witness for claim C8 at a concrete input: staging succeeds trivially, the
subprocess exits 0, and no output file appears in the workspace. -/
theorem sierra_output_not_produced_distinct_witness :
    stageAll sEnvNoOut "/tmp/ws" { fsEmpty with dirs := "/tmp/ws" :: fsEmpty.dirs }
      [] none none = .ok { fsEmpty with dirs := "/tmp/ws" :: fsEmpty.dirs } ∧
    sEnvNoOut.runExit (sierraFullCmd "/usr/bin/apptainer" "/tmp/ws" "/img/hyrise.sif"
      (sierraCmdParts (basename "/res/a.json") none none "post" [])) = 0 ∧
    (applyRun sEnvNoOut { fsEmpty with dirs := "/tmp/ws" :: fsEmpty.dirs }
      (joinPath "/tmp/ws" (basename "/res/a.json"))).files
      (joinPath "/tmp/ws" (basename "/res/a.json")) = none ∧
    ((run_sierra_local_container sEnvNoOut fsEmpty "/tmp/ws" "/usr/bin/apptainer"
        "/img/hyrise.sif" [] "/res/a.json" none none "post").1.success = false ∧
    (run_sierra_local_container sEnvNoOut fsEmpty "/tmp/ws" "/usr/bin/apptainer"
        "/img/hyrise.sif" [] "/res/a.json" none none "post").1.error
      = some sierraOutputNotCreatedMsg ∧
    (∀ (env2 : SEnv) (g g1 : FS),
      stageAll env2 "/tmp/ws" { g with dirs := "/tmp/ws" :: g.dirs } [] none none
        = .ok g1 →
      env2.runExit (sierraFullCmd "/usr/bin/apptainer" "/tmp/ws" "/img/hyrise.sif"
        (sierraCmdParts (basename "/res/a.json") none none "post" [])) ≠ 0 →
      (run_sierra_local_container env2 g "/tmp/ws" "/usr/bin/apptainer"
        "/img/hyrise.sif" [] "/res/a.json" none none "post").1.error
        = some (sierraExecFailedMsg
            (sierraFullCmd "/usr/bin/apptainer" "/tmp/ws" "/img/hyrise.sif"
              (sierraCmdParts (basename "/res/a.json") none none "post" []))
            (env2.runExit (sierraFullCmd "/usr/bin/apptainer" "/tmp/ws"
              "/img/hyrise.sif"
              (sierraCmdParts (basename "/res/a.json") none none "post" []))))) ∧
    (∀ (cmd2 : List String) (code : Int),
      sierraOutputNotCreatedMsg ≠ sierraExecFailedMsg cmd2 code)) :=
  ⟨rfl, rfl, rfl,
   sierra_output_not_produced_distinct sEnvNoOut fsEmpty
     { fsEmpty with dirs := "/tmp/ws" :: fsEmpty.dirs } "/tmp/ws"
     "/usr/bin/apptainer" "/img/hyrise.sif" [] "/res/a.json" none none "post"
     rfl rfl rfl⟩

end HyRISE
